import Mathlib

/-!
# Verification of the spcplayer SPC700/DSP emulator core

Shallow embedding of the emulator in `src/spcplayer.c` (helpers from
`src/opcodes.c`).  C unsigned fixed-width arithmetic is modelled on `Nat`
with explicit `% 2^w` truncation at the points where the C types truncate;
C signed casts and signed wrap-around are modelled on `Int`.  Arithmetic
right shifts of possibly-negative C `int` values are modelled with `Int.fdiv`
by a power of two (gcc semantics).  Each definition names the C function it
embeds.
-/

namespace Spcplayer

/-- C cast `(Sint8) x` of an unsigned byte: two's-complement value. -/
def sint8 (x : Nat) : Int :=
  if x % 256 < 128 then (x % 256 : Int) else (x % 256 : Int) - 256

/-- Truncation of a C `int` value into `Sint16` storage (gcc wrap-around). -/
def i16 (x : Int) : Int := (x + 32768) % 65536 - 32768

/-- Reading a PSW flag as a C integer.  The flags are plain `int` one-bit
bitfields (src/spcplayer.c:120-132), which gcc/clang treat as signed, so a
stored set bit reads back as -1 — exactly as the one-nibble `int i : 4`
bitfield of `nibble_t` sign-extends.  Wherever the source uses a flag's
value arithmetically, this is the value that enters the expression. -/
def flagInt (b : Bool) : Int := if b then -1 else 0

/-- `make16` (src/spcplayer.c:294): `((uint16_t) high << 8) | low`. -/
def make16 (high low : Nat) : Nat := (high % 256) * 256 + low % 256

/-- `get_low` (src/spcplayer.c:301): `word & 0x00FF`. -/
def get_low (word : Nat) : Nat := word % 256

/-- `get_high` (src/spcplayer.c:309): `(word & 0xFF00) >> 8`. -/
def get_high (word : Nat) : Nat := (word / 256) % 256

/-- The `spc_flags_u` bitfield (src/spcplayer.c:120-132): one `Bool` per
PSW flag. -/
structure Psw where
  n : Bool
  v : Bool
  p : Bool
  b : Bool
  h : Bool
  i : Bool
  z : Bool
  c : Bool
deriving DecidableEq, Repr

/-- An all-clear PSW, used as a concrete starting point in witnesses. -/
def psw0 : Psw :=
  { n := false, v := false, p := false, b := false,
    h := false, i := false, z := false, c := false }

/-- `adjust_flags` (src/spcplayer.c:1009-1012): sets N from bit 7 of `val`
and Z from `val == 0`. -/
def adjust_flags (psw : Psw) (val : Nat) : Psw :=
  { psw with n := decide (val &&& 0x80 ≠ 0), z := decide (val = 0) }

/-- `do_adc` (src/spcplayer.c:901-919).  `dst` and `operand` are `Uint8`
values; returns the stored byte and the updated PSW.  Both sums add the raw
bitfield read `state->regs->psw.f.c`, which is -1 when the (signed,
one-bit) carry flag is set — so with carry set the routine computes
A + M - 1, not A + M + 1.  `result` is the C `Uint16` conversion of the
`int` sum (a negative sum wraps mod 2^16: at A = M = 0 with carry set it
becomes 0xFFFF), `sResult` the `Sint16` sum of the `(Sint8)` casts plus the
same flag value, `ret = result & 0x00FF`. -/
def do_adc (psw : Psw) (dst operand : Nat) : Nat × Psw :=
  let sResult : Int := sint8 dst + sint8 operand + flagInt psw.c
  let result : Nat :=
    (((dst % 256 : Int) + (operand % 256 : Int) + flagInt psw.c) % 65536).toNat
  let ret : Nat := result % 256
  (ret,
    { psw with
      c := decide (result > 0xFF)
      v := decide (sResult < -128 ∨ sResult > 127)
      z := decide (ret = 0)
      n := decide (ret &&& 0x80 ≠ 0) })

/-- `do_cmp` (src/spcplayer.c:884-899).  Flags from `operand1 - operand2`;
`result` is the C `Uint16` difference (int subtraction converted mod 2^16),
`temp_result = result & 0x00FF` feeds `adjust_flags`.  Note the source sets
V from `sResult` right under the comment saying V is not updated by CMP. -/
def do_cmp (psw : Psw) (operand1 operand2 : Nat) : Psw :=
  let result : Nat := (((operand1 % 256 : Int) - (operand2 % 256 : Int)) % 65536).toNat
  let sResult : Int := sint8 operand1 - sint8 operand2
  let psw := { psw with c := decide (¬ result > 0xFF) }
  let psw := { psw with v := decide (sResult < -128 ∨ sResult > 127) }
  let temp_result : Nat := result % 256
  adjust_flags psw temp_result

/-- `do_sub_ya` (src/spcplayer.c:938-960).  `result` is the C
`unsigned int` difference (mod 2^32), `sResult` the plain `int` difference
of the zero-extended `Uint16` values, `ret = result & 0xFFFF`.  N is taken
from `ret & 0x80` (bit 7), exactly as in the source. -/
def do_sub_ya (psw : Psw) (y a val : Nat) : Nat × Psw × Nat × Nat :=
  let ya : Nat := make16 y a
  let result : Nat := (((ya : Int) - (val % 65536 : Int)) % 4294967296).toNat
  let sResult : Int := (ya : Int) - (val % 65536 : Int)
  let ret : Nat := result % 65536
  let psw :=
    { psw with
      c := decide (¬ result > 0xFFFF)
      n := decide (ret &&& 0x80 ≠ 0)
      v := decide (sResult < -32768 ∨ sResult > 32767)
      z := decide (ret = 0) }
  (ret, psw, get_high ret, get_low ret)

/-- `do_add_ya` (src/spcplayer.c:962-984).  `result` is the C
`unsigned int` sum, `sResult` the plain `int` sum of the zero-extended
`Uint16` values, `ret = result & 0xFFFF`.  N is taken from `ret & 0x80`
(bit 7), exactly as in the source. -/
def do_add_ya (psw : Psw) (y a val : Nat) : Nat × Psw × Nat × Nat :=
  let ya : Nat := make16 y a
  let result : Nat := ya + val % 65536
  let sResult : Int := (ya : Int) + (val % 65536 : Int)
  let ret : Nat := result % 65536
  let psw :=
    { psw with
      c := decide (result > 0xFFFF)
      n := decide (ret &&& 0x80 ≠ 0)
      v := decide (sResult < -32768 ∨ sResult > 32767)
      z := decide (ret = 0) }
  (ret, psw, get_high ret, get_low ret)

/-! ## Machine state: memory fabric, timers, DSP voices -/

/-- Pointwise update of a C array viewed as a total function
(`arr[i] = v`; indices past the C array's length model out-of-bounds
storage and are never exercised by a defined execution). -/
def upd {α : Type} (f : Nat → α) (i : Nat) (v : α) : Nat → α :=
  fun j => if j = i then v else f j

/-- `brr_block_t` (src/spcplayer.c:134-140): 16 decoded `Sint16` samples
plus the header fields. -/
structure BrrBlock where
  samples : Nat → Int
  filter : Nat
  loop_flag : Nat
  last_chunk : Nat
  loop_code : Nat

/-- `spc_voice_t` (src/spcplayer.c:181-188).  `block` is the possibly-NULL
`brr_block_t *`; `counter` is the C `int` pitch counter;
`prev0/prev1/prev2` are `prev_brr_samples[0..2]`. -/
structure Voice where
  enabled : Nat
  cur_addr : Nat
  looping : Nat
  block : Option BrrBlock
  counter : Int
  prev0 : Int
  prev1 : Int
  prev2 : Int

/-- `spc_timers_s` (src/spcplayer.c:152-157), each array as a function
evaluated at 0..2. -/
structure Timers where
  next_timer : Nat → Nat
  timer : Nat → Nat
  counter : Nat → Nat
  divisor : Nat → Nat

/-- `spc_registers_t` (src/spcplayer.c:142-150). -/
structure Regs where
  pc : Nat
  a : Nat
  x : Nat
  y : Nat
  psw : Psw
  sp : Nat

/-- `spc_state_t` (src/spcplayer.c:190-204), restricted to the fields the
core touches (trace/profiling/audio handles are debug-only collaborators). -/
structure SpcState where
  regs : Regs
  timers : Timers
  ram : Nat → Nat
  dsp_registers : Nat → Nat
  current_dsp_register : Nat
  cycle : Nat
  voices : Nat → Voice

/-- `SPC_TIMER_CYCLES_8KHZ` (src/spcplayer.c:86). -/
def SPC_TIMER_CYCLES_8KHZ : Nat := 250

/-- `SPC_TIMER_CYCLES_64KHZ` (src/spcplayer.c:87). -/
def SPC_TIMER_CYCLES_64KHZ : Nat := 31

/-- `TIMER_CYCLES` (src/spcplayer.c:1014). -/
def TIMER_CYCLES : List Nat :=
  [SPC_TIMER_CYCLES_8KHZ, SPC_TIMER_CYCLES_8KHZ, SPC_TIMER_CYCLES_64KHZ]

/-- `clear_timer` (src/spcplayer.c:1047-1052). -/
def clear_timer (s : SpcState) (timer : Nat) : SpcState :=
  { s with timers :=
    { next_timer := upd s.timers.next_timer timer 0
      counter := upd s.timers.counter timer 0
      timer := upd s.timers.timer timer 0
      divisor := upd s.timers.divisor timer (s.ram (0xFA + timer)) } }

/-- `enable_timer` (src/spcplayer.c:1055-1063). -/
def enable_timer (s : SpcState) (timer : Nat) : SpcState :=
  { s with timers :=
    { next_timer := upd s.timers.next_timer timer (s.cycle + TIMER_CYCLES.getD timer 0)
      counter := upd s.timers.counter timer 0
      timer := upd s.timers.timer timer 0
      divisor := upd s.timers.divisor timer (s.ram (0xFA + timer)) } }

/-- `update_counters` (src/spcplayer.c:1017-1044): for each of the three
timers whose Control bit is set and whose `next_timer` cycle has been
reached, re-arm `next_timer` at `cycle + TIMER_CYCLES[timer]`, increment
the 8-bit pre-divider, and when it equals the divisor bump the counter
mod 16. -/
def update_counters (s : SpcState) : SpcState :=
  (List.range 3).foldl
    (fun s timer =>
      if s.ram 0xF1 &&& (1 <<< timer) ≠ 0 ∧ s.timers.next_timer timer ≤ s.cycle then
        let s := { s with timers :=
          { s.timers with
            next_timer := upd s.timers.next_timer timer (s.cycle + TIMER_CYCLES.getD timer 0)
            timer := upd s.timers.timer timer ((s.timers.timer timer + 1) % 256) } }
        if s.timers.timer timer = s.timers.divisor timer then
          { s with timers :=
            { s.timers with counter := upd s.timers.counter timer ((s.timers.counter timer + 1) % 16) } }
        else s
      else s)
    s

/-- `read_counter` (src/spcplayer.c:419-431): return the 4-bit counter and
clear it. -/
def read_counter (s : SpcState) (addr : Nat) : Nat × SpcState :=
  let counter_nr := addr - 0xFD
  let val := s.timers.counter counter_nr
  (val, { s with timers := { s.timers with counter := upd s.timers.counter counter_nr 0 } })

/-! ### BRR block decoding -/

/-- The `nibble_t` 4-bit signed bitfield (src/spcplayer.c:2493-2495):
assigning a nibble sign-extends it to [-8, 7]. -/
def nibble_val (x : Nat) : Int :=
  if x % 16 < 8 then (x % 16 : Int) else (x % 16 : Int) - 16

/-- One scaled sample of `decode_brr_block` (src/spcplayer.c:2548-2549):
`dst = (dst << range) >> 1` computed in C `int` then stored into `Sint16`.
The same expression is used for every `range`, 13-15 included. -/
def brr_scaled (range : Nat) (nib : Int) : Int :=
  i16 ((nib * 2 ^ range).fdiv 2)

/-- The sample-filling loop of `decode_brr_block` (src/spcplayer.c:2539-2561):
for each of the 8 payload bytes, the high nibble goes to `samples[2x]` and
the low nibble to `samples[2x+1]`.  All 16 entries are written, so the
starting array contents are irrelevant. -/
def decode_brr_samples (ptr : Nat → Nat) (range : Nat) : Nat → Int :=
  (List.range 8).foldl
    (fun samples x =>
      let dst_hi := brr_scaled range (nibble_val ((ptr (x + 1) / 16) % 16))
      let dst_lo := brr_scaled range (nibble_val (ptr (x + 1) % 16))
      upd (upd samples (2 * x) dst_hi) (2 * x + 1) dst_lo)
    (fun _ => 0)

/-- `decode_brr_block` (src/spcplayer.c:2497-2570).  `ptr i` is the byte
`ptr[i]` of the 9-byte compressed block.  The filter bits are stored in the
block but never applied; no previous-sample state enters the decode. -/
def decode_brr_block (ptr : Nat → Nat) : BrrBlock :=
  let b := ptr 0
  { samples := decode_brr_samples ptr ((b / 16) % 16)
    filter := (b / 4) % 4
    loop_flag := (b / 2) % 2
    last_chunk := b % 2
    loop_code := b % 4 }

/-- `INTERP_TABLE` (src/spcplayer.c:207-240): the 512-entry Gaussian
interpolation table, values in decimal. -/
def INTERP_TABLE : List Int := [
    0, 0, 0, 0, 0, 0, 0, 0, 0, 0, 0, 0, 0, 0, 0, 0,
    1, 1, 1, 1, 1, 1, 1, 1, 1, 1, 1, 2, 2, 2, 2, 2,
    2, 2, 3, 3, 3, 3, 3, 4, 4, 4, 4, 4, 5, 5, 5, 5,
    6, 6, 6, 6, 7, 7, 7, 8, 8, 8, 9, 9, 9, 10, 10, 10,
    11, 11, 11, 12, 12, 13, 13, 14, 14, 15, 15, 15, 16, 16, 17, 17,
    18, 19, 19, 20, 20, 21, 21, 22, 23, 23, 24, 24, 25, 26, 27, 27,
    28, 29, 29, 30, 31, 32, 32, 33, 34, 35, 36, 36, 37, 38, 39, 40,
    41, 42, 43, 44, 45, 46, 47, 48, 49, 50, 51, 52, 53, 54, 55, 56,
    58, 59, 60, 61, 62, 64, 65, 66, 67, 69, 70, 71, 73, 74, 76, 77,
    78, 80, 81, 83, 84, 86, 87, 89, 90, 92, 94, 95, 97, 99, 100, 102,
    104, 106, 107, 109, 111, 113, 115, 117, 118, 120, 122, 124, 126, 128, 130, 132,
    134, 137, 139, 141, 143, 145, 147, 150, 152, 154, 156, 159, 161, 163, 166, 168,
    171, 173, 175, 178, 180, 183, 186, 188, 191, 193, 196, 199, 201, 204, 207, 210,
    212, 215, 218, 221, 224, 227, 230, 233, 236, 239, 242, 245, 248, 251, 254, 257,
    260, 263, 267, 270, 273, 276, 280, 283, 286, 290, 293, 297, 300, 304, 307, 311,
    314, 318, 321, 325, 328, 332, 336, 339, 343, 347, 351, 354, 358, 362, 366, 370,
    374, 378, 381, 385, 389, 393, 397, 401, 405, 410, 414, 418, 422, 426, 430, 434,
    439, 443, 447, 451, 456, 460, 464, 469, 473, 477, 482, 486, 491, 495, 499, 504,
    508, 513, 517, 522, 527, 531, 536, 540, 545, 550, 554, 559, 563, 568, 573, 577,
    582, 587, 592, 596, 601, 606, 611, 615, 620, 625, 630, 635, 640, 644, 649, 654,
    659, 664, 669, 674, 678, 683, 688, 693, 698, 703, 708, 713, 718, 723, 728, 732,
    737, 742, 747, 752, 757, 762, 767, 772, 777, 782, 787, 792, 797, 802, 806, 811,
    816, 821, 826, 831, 836, 841, 846, 851, 855, 860, 865, 870, 875, 880, 884, 889,
    894, 899, 904, 908, 913, 918, 923, 927, 932, 937, 941, 946, 951, 955, 960, 965,
    969, 974, 978, 983, 988, 992, 997, 1001, 1005, 1010, 1014, 1019, 1023, 1027, 1032, 1036,
    1040, 1045, 1049, 1053, 1057, 1061, 1066, 1070, 1074, 1078, 1082, 1086, 1090, 1094, 1098, 1102,
    1106, 1109, 1113, 1117, 1121, 1125, 1128, 1132, 1136, 1139, 1143, 1146, 1150, 1153, 1157, 1160,
    1164, 1167, 1170, 1174, 1177, 1180, 1183, 1186, 1190, 1193, 1196, 1199, 1202, 1205, 1207, 1210,
    1213, 1216, 1219, 1221, 1224, 1227, 1229, 1232, 1234, 1237, 1239, 1241, 1244, 1246, 1248, 1251,
    1253, 1255, 1257, 1259, 1261, 1263, 1265, 1267, 1269, 1270, 1272, 1274, 1275, 1277, 1279, 1280,
    1282, 1283, 1284, 1286, 1287, 1288, 1290, 1291, 1292, 1293, 1294, 1295, 1296, 1297, 1297, 1298,
    1299, 1300, 1300, 1301, 1302, 1302, 1303, 1303, 1303, 1304, 1304, 1304, 1304, 1304, 1305, 1305]

/-! ### Memory fabric -/

/-- `get_dsp` (src/spcplayer.c:664-670). -/
def get_dsp (s : SpcState) (reg : Nat) : Nat := s.dsp_registers reg

/-- `get_dsp_voice` (src/spcplayer.c:673-682).  The source computes
`addr = voice_nr * 0x10 + reg` but then calls `get_dsp(state, reg)`, so the
voice number never enters the lookup; modelled exactly as written. -/
def get_dsp_voice (s : SpcState) (voice_nr : Nat) (reg : Nat) : Nat :=
  let _addr := (voice_nr * 16 + reg) % 256
  get_dsp s reg

/-- `register_read` (src/spcplayer.c:559-615), for `0xF0 ≤ addr ≤ 0xFF`:
F3 reads the DSP register at the current index, FD-FF read-and-clear the
timer counters, everything else reads RAM. -/
def register_read (s : SpcState) (addr : Nat) : Nat × SpcState :=
  match addr with
  | 0xF3 => (s.dsp_registers s.current_dsp_register, s)
  | 0xFD | 0xFE | 0xFF => read_counter s addr
  | _ => (s.ram addr, s)

/-- `read_byte` (src/spcplayer.c:637-647).  The guard
`(addr & 0xFFF0) == 0x00F0` is written as the equivalent interval test on
the 16-bit address. -/
def read_byte (s : SpcState) (addr : Nat) : Nat × SpcState :=
  let addr := addr % 65536
  if 0xF0 ≤ addr ∧ addr ≤ 0xFF then register_read s addr
  else (s.ram addr, s)

/-- `read_word` (src/spcplayer.c:650-661): little-endian, two successive
`read_byte` calls. -/
def read_word (s : SpcState) (addr : Nat) : Nat × SpcState :=
  let addr := addr % 65536
  let lr := read_byte s addr
  let hr := read_byte lr.2 (addr + 1)
  (make16 hr.1 lr.1, hr.2)

/-- `get_sample_addr` (src/spcplayer.c:2458-2491): directory entry lookup
for a voice; `addr_ptr` is a `Uint16`. -/
def get_sample_addr (s : SpcState) (voice_nr : Nat) (loop : Nat) : Nat × SpcState :=
  let dir := s.dsp_registers 0x5D
  let voice_srcn_addr := ((voice_nr <<< 4) ||| 0x04) % 256
  let voice_srcn := s.dsp_registers voice_srcn_addr
  let addr_ptr := (dir * 0x100 + voice_srcn * 4) % 65536
  if loop ≠ 0 then read_word s (addr_ptr + 2) else read_word s addr_ptr

/-- `kon_voice` (src/spcplayer.c:2981-2998): enable the voice, point it at
the directory start address, zero the pitch counter and decode the first
block straight out of RAM. -/
def kon_voice (s : SpcState) (voice_nr : Nat) : SpcState :=
  let ar := get_sample_addr s voice_nr 0
  let s1 := ar.2
  let block := decode_brr_block (fun i => s1.ram (ar.1 + i))
  let v := { s1.voices voice_nr with
             enabled := 1, cur_addr := ar.1, looping := 0, counter := 0, block := some block }
  { s1 with voices := upd s1.voices voice_nr v }

/-- `koff_voice` (src/spcplayer.c:3001-3008). -/
def koff_voice (s : SpcState) (voice_nr : Nat) : SpcState :=
  let v := { s.voices voice_nr with enabled := 0, block := none }
  { s with voices := upd s.voices voice_nr v }

/-- `dsp_register_write` (src/spcplayer.c:434-479): store the byte, then
dispatch KON/KOFF bit loops; a write to ENDX zeroes `state->ram[0x7C]`
(the source indexes `ram`, not `dsp_registers`, there). -/
def dsp_register_write (s : SpcState) (reg val : Nat) : SpcState :=
  let s := { s with dsp_registers := upd s.dsp_registers reg val }
  match reg with
  | 0x4C =>
    (List.range 8).foldl
      (fun s x => if val &&& (1 <<< x) ≠ 0 then kon_voice s x else s) s
  | 0x5C =>
    (List.range 8).foldl
      (fun s x => if val &&& (1 <<< x) ≠ 0 then koff_voice s x else s) s
  | 0x7C => { s with ram := upd s.ram 0x7C 0 }
  | _ => s

/-- `register_write` (src/spcplayer.c:482-557), for `0xF0 ≤ addr ≤ 0xFF`
and a byte `val`.  F1 stores and then enables/clears the three timers from
bits 0..2; F2 records the DSP index (values above 127 are reduced `% 127`,
as in the source) and stores the raw byte; F3 dispatches to the DSP and
stores; FD-FF ignore the write. -/
def register_write (s : SpcState) (addr val : Nat) : SpcState :=
  match addr with
  | 0xF1 =>
    let s := { s with ram := upd s.ram addr val }
    (List.range 3).foldl
      (fun s timer =>
        if val &&& (1 <<< timer) ≠ 0 then enable_timer s timer else clear_timer s timer)
      s
  | 0xF2 =>
    let s := { s with current_dsp_register := if val > 127 then val % 127 else val }
    { s with ram := upd s.ram addr val }
  | 0xF3 =>
    let s := dsp_register_write s s.current_dsp_register val
    { s with ram := upd s.ram addr val }
  | 0xFD | 0xFE | 0xFF => s
  | _ => { s with ram := upd s.ram addr val }

/-- `write_byte` (src/spcplayer.c:618-625).  The parameters truncate to
their C types (`Uint16` address, `Uint8` value); the MMIO guard
`(addr & 0xFFF0) == 0x00F0` is the interval test on the 16-bit address. -/
def write_byte (s : SpcState) (addr val : Nat) : SpcState :=
  let addr := addr % 65536
  let val := val % 256
  if 0xF0 ≤ addr ∧ addr ≤ 0xFF then register_write s addr val
  else { s with ram := upd s.ram addr val }

/-! ### DSP sample production -/

/-- `get_voice_pitch` (src/spcplayer.c:3249-3260 region): 16-bit pitch from
the `VxPITCHL`/`VxPITCHH` registers via `get_dsp_voice`. -/
def get_voice_pitch (s : SpcState) (voice_nr : Nat) : Nat :=
  let pitch_low := get_dsp_voice s voice_nr 0x02
  let pitch_high := get_dsp_voice s voice_nr 0x03
  make16 pitch_high pitch_low

/-- `decode_next_brr_block` (src/spcplayer.c:2850-2897): advance `cur_addr`
by 9 bytes, follow the loop address when the consumed block was the last
chunk of a looping sample, decode the next block, and set the voice's ENDX
bit (in `state->ram[0x7C]`, as the source writes it) when the freshly
decoded block is a last chunk.  Returns 0 when the voice has no more data. -/
def decode_next_brr_block (s : SpcState) (voice_nr : Nat) : Nat × SpcState :=
  let v := s.voices voice_nr
  let blk := v.block.getD (decode_brr_block fun _ => 0)
  let cur1 := (v.cur_addr + 9) % 65536
  let step1 :=
    if blk.last_chunk ≠ 0 then
      if blk.loop_flag ≠ 0 then
        let ar := get_sample_addr s voice_nr 1
        (1, ar.1, ar.2)
      else (0, cur1, s)
    else (1, cur1, s)
  let ret := step1.1
  let cur2 := if blk.last_chunk ≠ 0 ∧ blk.loop_flag ≠ 0 then step1.2.1 else cur1
  let s1 := step1.2.2
  let vNoBlock := { v with cur_addr := cur2, block := none }
  let s1 := { s1 with voices := upd s1.voices voice_nr vNoBlock }
  if ret ≠ 0 then
    let newblk := decode_brr_block (fun i => s1.ram (cur2 + i))
    let ret2 := if newblk.last_chunk ≠ 0 ∧ ¬ newblk.loop_flag ≠ 0 then 0 else ret
    let vNew := { v with cur_addr := cur2, block := some newblk }
    let s2 := { s1 with voices := upd s1.voices voice_nr vNew }
    let s2 :=
      if newblk.last_chunk ≠ 0 then
        { s2 with ram := upd s2.ram 0x7C (s2.ram 0x7C ||| (1 <<< voice_nr)) }
      else s2
    (ret2, s2)
  else (ret, s1)

/-- `INTERP_TABLE[i]` as the C expression reads it; a negative or
out-of-bounds index is undefined behaviour in C and is mapped to 0 here
(no claim exercises that case). -/
def interp_at (i : Int) : Int :=
  if 0 ≤ i ∧ i < 512 then INTERP_TABLE.getD i.toNat 0 else 0

/-- The local `out` computation of `get_next_sample`
(src/spcplayer.c:2957-2961): each product is shifted right by 10 and the
running sum is truncated into the `Sint16` local after every `+=`; the
final value is shifted right once more.  The source computes this value and
then discards it. -/
def interp_out (index : Nat) (p0 p1 p2 sample : Int) : Int :=
  let o1 := i16 ((interp_at (0x0FF - (index : Int)) * p0).fdiv 1024)
  let o2 := i16 (o1 + (interp_at (0x1FF - (index : Int)) * p1).fdiv 1024)
  let o3 := i16 (o2 + (interp_at (0x100 + (index : Int)) * p2).fdiv 1024)
  let o4 := i16 (o3 + (interp_at (0x000 + (index : Int)) * sample).fdiv 1024)
  o4.fdiv 2

/-- `get_next_sample` (src/spcplayer.c:2926-2978).  When the pitch counter
has run past 65536 the next block is decoded first.  In the play branch the
raw block sample selected by bits 12-15 of the counter is fetched, the
interpolated `out` (see `interp_out`) is computed and discarded, the
previous-sample window is rotated with the raw sample, and the counter is
advanced by the voice pitch.  The function returns the raw sample —
unclamped and uninterpolated. -/
def get_next_sample (s : SpcState) (voice_nr : Nat) : Int × SpcState :=
  let dec :=
    if (s.voices voice_nr).counter > 65536 then
      let r := decode_next_brr_block s voice_nr
      let s1 := r.2
      let vMod := { s1.voices voice_nr with counter := (s1.voices voice_nr).counter % 65536 }
      let s1 := { s1 with voices := upd s1.voices voice_nr vMod }
      (r.1, s1)
    else (1, s)
  let has_more := dec.1
  let s1 := dec.2
  let v := s1.voices voice_nr
  if has_more = 0 then
    let vOff := { v with enabled := 0 }
    (0, { s1 with voices := upd s1.voices voice_nr vOff })
  else
    let brr_nr := (v.counter.toNat / 4096) % 16
    let index := (v.counter.toNat / 16) % 512
    let sample := (v.block.getD (decode_brr_block fun _ => 0)).samples brr_nr
    let _out := interp_out index v.prev0 v.prev1 v.prev2 sample
    let pitch := get_voice_pitch s1 voice_nr
    let v1 := { v with prev0 := v.prev1, prev1 := v.prev2, prev2 := sample,
                       counter := v.counter + pitch }
    (sample, { s1 with voices := upd s1.voices voice_nr v1 })

/-! ### Instruction execution (the opcodes the claims concern) -/

/-- `get_direct_page_addr` (src/spcplayer.c:987-997). -/
def get_direct_page_addr (s : SpcState) (addr : Nat) : Nat :=
  let base := if s.regs.psw.p then 0x0100 else 0x0000
  (addr % 65536 + base) % 65536

/-- The body of `case 0xBB` (INC $dp+X, src/spcplayer.c:1797-1811): read
the byte at direct page + X, increment it, set N/Z from it, write it back. -/
def case_inc_dp_x (s : SpcState) (operand1 : Nat) : SpcState :=
  let dp_addr := (get_direct_page_addr s operand1 + s.regs.x) % 65536
  let r := read_byte s dp_addr
  let s1 := r.2
  let val := (r.1 + 1) % 256
  let s1 := { s1 with regs := { s1.regs with psw := adjust_flags s1.regs.psw val } }
  write_byte s1 dp_addr val

/-- The body of `case 0xBC` (INC A, src/spcplayer.c:1813-1817). -/
def case_inc_a (s : SpcState) : SpcState :=
  let a := (s.regs.a + 1) % 256
  { s with regs := { s.regs with a := a, psw := adjust_flags s.regs.psw a } }

/-- The body of `case 0xEC` (MOV Y,$aaaa, src/spcplayer.c:2061-2065):
load Y from the absolute address and set N/Z from it. -/
def case_mov_y_abs (s : SpcState) (operand1 operand2 : Nat) : SpcState :=
  let abs_addr := make16 operand2 operand1
  let r := read_byte s abs_addr
  let s1 := r.2
  { s1 with regs := { s1.regs with y := r.1, psw := adjust_flags s1.regs.psw r.1 } }

/-- The body of `case 0xED` (NOTC, src/spcplayer.c:2067-2070). -/
def case_notc (s : SpcState) : SpcState :=
  { s with regs := { s.regs with psw := { s.regs.psw with c := ! s.regs.psw.c } } }

/-- `execute_instruction` (src/spcplayer.c:1065-2187) restricted to the
opcodes the claims concern: 0xBB, 0xBC, 0xEC, 0xED (other opcodes are not
modelled and yield `none`).  In the source, `case 0xBB:` carries no `break`
and falls through into `case 0xBC:` (INC A), and `case 0xEC:` carries no
`break` and falls through into `case 0xED:` (NOTC); the fall-through also
overwrites the `cycles` value.  After the switch, PC advances by the decode
table length of the fetched opcode (`OPCODE_TABLE` in src/opcodes.c: 2 for
0xBB, 1 for 0xBC, 3 for 0xEC, 1 for 0xED) and `state->cycle` by the final
`cycles`. -/
def execute_instruction (s : SpcState) (addr : Nat) : Option SpcState :=
  let opcode := s.ram (addr % 65536)
  let operand1 := s.ram (addr % 65536 + 1)
  let operand2 := s.ram (addr % 65536 + 2)
  let finish := fun (s : SpcState) (len cycles : Nat) =>
    some { s with regs := { s.regs with pc := (s.regs.pc + len) % 65536 },
                  cycle := s.cycle + cycles }
  match opcode with
  | 0xBB => finish (case_inc_a (case_inc_dp_x s operand1)) 2 2
  | 0xBC => finish (case_inc_a s) 1 2
  | 0xEC => finish (case_notc (case_mov_y_abs s operand1 operand2)) 3 3
  | 0xED => finish (case_notc s) 1 3
  | _ => none

/-! ### Concrete states for witnesses and counterexamples -/

/-- A voice with everything zeroed (power-up shape of `init_voice`,
src/spcplayer.c:3011-3029, before any KON). -/
def voiceZero : Voice :=
  { enabled := 0, cur_addr := 0, looping := 0, block := none,
    counter := 0, prev0 := 0, prev1 := 0, prev2 := 0 }

/-- A fully zeroed machine state used as the base of concrete scenarios. -/
def stateZero : SpcState :=
  { regs := { pc := 0, a := 0, x := 0, y := 0, psw := psw0, sp := 0 }
    timers := { next_timer := fun _ => 0, timer := fun _ => 0,
                counter := fun _ => 0, divisor := fun _ => 0 }
    ram := fun _ => 0
    dsp_registers := fun _ => 0
    current_dsp_register := 0
    cycle := 0
    voices := fun _ => voiceZero }

/-! ### Claim-side definitions (refinement comparisons, written from the
claims' words rather than from the source) -/

/-- The flag behaviour claim C5 asserts for ADDW at one input: N from bit 15
of the 16-bit result, Z from the whole result, C from 16-bit unsigned
overflow, V from signed overflow at 16-bit width (the true signed sum of the
two's-complement readings of YA and M falls outside [-32768, 32767]). -/
def addw_claimed_flags (y a val : Nat) (psw : Psw) : Prop :=
  let r := do_add_ya psw y a val
  let ya16 : Int := if make16 y a < 32768 then (make16 y a : Int) else (make16 y a : Int) - 65536
  let m16 : Int := if val % 65536 < 32768 then (val % 65536 : Int) else (val % 65536 : Int) - 65536
  r.2.1.c = decide (make16 y a + val % 65536 > 0xFFFF) ∧
  r.2.1.z = decide (r.1 = 0) ∧
  r.2.1.n = decide (r.1 / 32768 % 2 = 1) ∧
  r.2.1.v = decide (ya16 + m16 < -32768 ∨ ya16 + m16 > 32767)

/-- Claim C1's scaling step, from the claim's words: `(nibble << range) >> 1`
when `range ≤ 12`, else `((nibble >> 3) << 12) >> 1`. -/
def brr_scaled_claimed (range : Nat) (nib : Int) : Int :=
  if range ≤ 12 then (nib * 2 ^ range).fdiv 2
  else ((nib.fdiv 8) * 4096).fdiv 2

/-- Claim C1's filter step, from the claim's words (spec filters F0-F3 with
`prev0 = s[n-2]`, `prev1 = s[n-1]`). -/
def brr_filter_claimed (filter : Nat) (prev0 prev1 dst : Int) : Int :=
  match filter with
  | 0 => dst
  | 1 => dst + prev1 * 1 + (-prev1 * 1).fdiv 16
  | 2 => dst + prev1 * 2 + (-prev1 * 3).fdiv 32 - prev0 + (prev0 * 1).fdiv 16
  | _ => dst + prev1 * 2 + (-prev1 * 13).fdiv 64 - prev0 + (prev0 * 3).fdiv 16

/-- Claim C1's decoder, from the claim's words: scale each of the 16
sign-extended nibbles, pass it through the selected filter with the two
previous output samples, and shift the previous-sample window after each
sample. -/
def decode_brr_samples_claimed (ptr : Nat → Nat) (prev0 prev1 : Int) : Nat → Int :=
  let b := ptr 0
  let range := (b / 16) % 16
  let filter := (b / 4) % 4
  let step := fun (st : (Int × Int) × (Nat → Int)) (i : Nat) =>
    let nib := nibble_val (if i % 2 = 0 then (ptr (i / 2 + 1) / 16) % 16 else ptr (i / 2 + 1) % 16)
    let dst := brr_scaled_claimed range nib
    let out := brr_filter_claimed filter st.1.1 st.1.2 dst
    ((st.1.2, out), upd st.2 i out)
  ((List.range 16).foldl step ((prev0, prev1), fun _ => 0)).2

/-- Claim C8's interpolated voice output, from the claim's words: phase
`i = (pitch_counter >> 4) & 0xFF`, a single shift of the accumulated sum by
11, and a clamp to the signed 15-bit range [-16384, 16383]. -/
def gauss_mix_claimed (counter : Nat) (p0 p1 p2 sample : Int) : Int :=
  let i : Int := ((counter / 16) % 256 : Nat)
  let mix := (interp_at (0x0FF - i) * p0 + interp_at (0x1FF - i) * p1 +
              interp_at (0x100 + i) * p2 + interp_at (0x000 + i) * sample).fdiv 2048
  max (-16384) (min 16383 mix)

/-! ### Concrete scenario states -/

/-- A 9-byte BRR block with header 0x04 (range 0, filter 1, no loop, not
last) and all-zero payload nibbles. -/
def brrPtrF1 : Nat → Nat := fun i => if i = 0 then 0x04 else 0

/-- A decoded block holding a single non-zero sample (1000 at index 0),
as left by a previous decode. -/
def blockSpike : BrrBlock :=
  { samples := upd (fun _ => 0) 0 1000
    filter := 0, loop_flag := 0, last_chunk := 0, loop_code := 0 }

/-- Voice 0 playing `blockSpike` from the start (pitch counter 0, empty
previous-sample window). -/
def voiceSpike : Voice :=
  { enabled := 1, cur_addr := 0x1000, looping := 0, block := some blockSpike,
    counter := 0, prev0 := 0, prev1 := 0, prev2 := 0 }

/-- Machine state with voice 0 set up on `blockSpike`. -/
def stateSpike : SpcState :=
  { stateZero with voices := upd stateZero.voices 0 voiceSpike }

/-- Machine state for the timer scenario: Control = 0x05 (timers 0 and 2
enabled), all three timers armed to fire at cycle 1000, divisors 5, current
cycle exactly 1000. -/
def stateTimers : SpcState :=
  { stateZero with
    ram := upd stateZero.ram 0xF1 0x05
    cycle := 1000
    timers := { next_timer := fun _ => 1000, timer := fun _ => 0,
                counter := fun _ => 0, divisor := fun _ => 5 } }

/-- Machine state for the MOV Y,$aaaa scenario: opcode 0xEC with operands
0x00 0x10 at PC = 0x2000, RAM[0x1000] = 0x42, all flags clear. -/
def stateMovY : SpcState :=
  { stateZero with
    ram := upd (upd (upd (upd stateZero.ram 0x2000 0xEC) 0x2001 0x00) 0x2002 0x10) 0x1000 0x42
    regs := { stateZero.regs with pc := 0x2000 } }

/-- Machine state for the INC $dp+X scenario: opcode 0xBB with operand 0x10
at PC = 0x2000, X = 2, A = 5, RAM[0x0012] = 0x7F, all flags clear. -/
def stateIncDp : SpcState :=
  { stateZero with
    ram := upd (upd (upd stateZero.ram 0x2000 0xBB) 0x2001 0x10) 0x0012 0x7F
    regs := { stateZero.regs with pc := 0x2000, a := 5, x := 2 } }

/-! ## Theorems -/

/-- Bit 7 of a stored byte: `(x & 0x80) != 0` is exactly `128 ≤ x % 256`. -/
theorem and_bit7_iff (x : Nat) : x &&& 0x80 ≠ 0 ↔ 128 ≤ x % 256 := by
  have h1 : x &&& 2 ^ 7 = (x.testBit 7).toNat * 2 ^ 7 := Nat.and_two_pow x 7
  have h2 : x.testBit 7 = decide (x / 2 ^ 7 % 2 = 1) := Nat.testBit_to_div_mod
  have h128 : (0x80 : Nat) = 2 ^ 7 := by norm_num
  rw [h128, h1]
  cases hb : x.testBit 7 with
  | false =>
    rw [hb] at h2
    have h3 : ¬ (x / 2 ^ 7 % 2 = 1) := by simpa using h2.symm
    simp only [Bool.toNat_false, zero_mul, ne_eq, not_true_eq_false]
    constructor
    · intro h; exact h.elim
    · intro h; exfalso; revert h h3; omega
  | true =>
    rw [hb] at h2
    have h3 : x / 2 ^ 7 % 2 = 1 := by simpa using h2.symm
    simp only [Bool.toNat_true, one_mul]
    constructor
    · intro _; revert h3; omega
    · intro _; norm_num

/-- C2 (code bug): a firing of `update_counters` re-arms an enabled timer
`TIMER_CYCLES[timer]` cycles ahead — 250 cycles for timers 0/1 and 31 for
timer 2, not the 256 and 32 that the 2.048 MHz clock at 8 kHz / 64 kHz
requires (the constants' own comment mis-computes `2.048 MHz / 8 kHz` as
250).  With timers 0 and 2 enabled and due at cycle 1000, the new deadlines
are 1250 and 1031 instead of 1256 and 1032. -/
theorem update_counters_period_c2 :
    (update_counters stateTimers).timers.next_timer 0 = 1000 + SPC_TIMER_CYCLES_8KHZ ∧
    (update_counters stateTimers).timers.next_timer 2 = 1000 + SPC_TIMER_CYCLES_64KHZ ∧
    SPC_TIMER_CYCLES_8KHZ ≠ 256 ∧ SPC_TIMER_CYCLES_64KHZ ≠ 32 ∧
    (update_counters stateTimers).timers.next_timer 1 = 1000 := by
  decide

/-- C4 (code bug): `do_cmp` overwrites the V flag — comparing 0x80 with
0x01 (signed -128 - 1 = -129, out of range) turns a clear V into a set V,
while the claim (and the source's own comment) says CMP leaves V unchanged. -/
theorem cmp_updates_v_c4 :
    psw0.v = false ∧ (do_cmp psw0 0x80 0x01).v = true := by
  decide

/-- C9 (code bug): executing opcode 0xEC (MOV Y,$aaaa) at PC = 0x2000 with
all flags clear loads Y = RAM[0x1000] = 0x42 and sets N/Z from it, but the
missing `break` falls through into the 0xED (NOTC) case: the carry flag is
toggled to true and the cycle cost becomes 3 instead of 4. -/
theorem mov_y_abs_toggles_carry_c9 :
    stateMovY.regs.psw.c = false ∧
    (execute_instruction stateMovY 0x2000).map
        (fun s => (s.regs.y, s.regs.psw.c, s.regs.psw.n, s.regs.psw.z, s.regs.pc, s.cycle)) =
      some (0x42, true, false, false, 0x2003, 3) := by
  decide

/-- C10 (code bug): executing opcode 0xBB (INC $dp+X) at PC = 0x2000 with
A = 5, X = 2 and RAM[0x0012] = 0x7F increments the memory byte to 0x80, but
the missing `break` falls through into the 0xBC (INC A) case: A becomes 6,
N and Z are recomputed from A (N = false although the memory result 0x80
has bit 7 set), and the cycle cost becomes 2 instead of 5. -/
theorem inc_dp_x_falls_into_inc_a_c10 :
    (execute_instruction stateIncDp 0x2000).map
        (fun s => (s.ram 0x0012, s.regs.a, s.regs.psw.n, s.regs.psw.z, s.regs.pc, s.cycle)) =
      some (0x80, 6, false, false, 0x2002, 2) := by
  decide

/-- C3 (code bug): the PSW carry is a plain `int c : 1` bitfield, signed
under the default gcc build, so a set carry reads back as -1 and `do_adc`
adds that value into its sums: with A = 0x00, M = 0x00 and carry set, the
code stores 0xFF and sets C and N (the int sum -1 converts to 0xFFFF in
the `Uint16` result, which exceeds 0xFF), where the claim, matching the
source's evident intent sum = A + M + C, requires storing 0x01 with C, N
and Z all clear.  On carry-clear inputs the code does satisfy the claim,
including both of its boundary instances: A=0xFF, M=0x01, C=0 gives A=0x00,
C=1, Z=1, N=0, V=0, and A=0x7F, M=0x01, C=0 gives A=0x80, V=1, N=1, Z=0. -/
theorem do_adc_carry_bug_c3 :
    do_adc { psw0 with c := true } 0x00 0x00 =
      (0xFF, { psw0 with c := true, n := true }) ∧
    do_adc psw0 0xFF 0x01 = (0x00, { psw0 with c := true, z := true }) ∧
    do_adc psw0 0x7F 0x01 = (0x80, { psw0 with v := true, n := true }) := by
  decide

/-- C5 (counterexample): at YA = 0x8000, M = 0x0000, ADDW's result is
0x8000, yet the code leaves N clear (it tests bit 7 of the 16-bit result,
which is 0) where the claim requires N = bit 15 = 1, and the code sets V
(its `sResult` is the sum of the *unsigned* operand values, 32768 > 32767)
where signed overflow at 16-bit width does not occur (-32768 + 0 is in
range). -/
theorem addw_claimed_flags_counterexample_c5 :
    ¬ addw_claimed_flags 0x80 0x00 0x0000 psw0 := by
  simp only [addw_claimed_flags]
  decide

/-- C5 (amended): ADDW/SUBW compute the 16-bit result and C and Z as the
claim states, but N is taken from bit 7 of the result (not bit 15), and V
is computed from the zero-extended (unsigned) operand values: for ADDW it
is set iff the unsigned sum exceeds 32767, for SUBW iff the unsigned
difference lies outside [-32768, 32767]. -/
theorem addw_subw_flags_c5 (y a val : Nat) (psw : Psw)
    (hy : y < 256) (ha : a < 256) (hval : val < 65536) :
    ((do_add_ya psw y a val).1 = (256 * y + a + val) % 65536 ∧
     ((do_add_ya psw y a val).2.1.c = true ↔ 65535 < 256 * y + a + val) ∧
     ((do_add_ya psw y a val).2.1.n = true ↔ 128 ≤ (256 * y + a + val) % 65536 % 256) ∧
     ((do_add_ya psw y a val).2.1.v = true ↔ 32767 < 256 * y + a + val) ∧
     ((do_add_ya psw y a val).2.1.z = true ↔ (256 * y + a + val) % 65536 = 0) ∧
     (do_add_ya psw y a val).2.2.1 = (256 * y + a + val) % 65536 / 256 ∧
     (do_add_ya psw y a val).2.2.2 = (256 * y + a + val) % 65536 % 256) ∧
    ((do_sub_ya psw y a val).1 = (((256 * y + a : Int) - val) % 65536).toNat ∧
     ((do_sub_ya psw y a val).2.1.c = true ↔ val ≤ 256 * y + a) ∧
     ((do_sub_ya psw y a val).2.1.n = true ↔
        128 ≤ (((256 * y + a : Int) - val) % 65536).toNat % 256) ∧
     ((do_sub_ya psw y a val).2.1.v = true ↔
        (256 * y + a : Int) - val < -32768 ∨ 32767 < (256 * y + a : Int) - val) ∧
     ((do_sub_ya psw y a val).2.1.z = true ↔ 256 * y + a = val) ∧
     (do_sub_ya psw y a val).2.2.1 = (((256 * y + a : Int) - val) % 65536).toNat / 256 ∧
     (do_sub_ya psw y a val).2.2.2 = (((256 * y + a : Int) - val) % 65536).toNat % 256) := by
  have hmk : make16 y a = 256 * y + a := by
    unfold make16
    rw [Nat.mod_eq_of_lt hy, Nat.mod_eq_of_lt ha]
    ring
  have hvv : val % 65536 = val := Nat.mod_eq_of_lt hval
  have hnadd : (do_add_ya psw y a val).2.1.n =
      decide ((do_add_ya psw y a val).1 &&& 0x80 ≠ 0) := rfl
  have hnsub : (do_sub_ya psw y a val).2.1.n =
      decide ((do_sub_ya psw y a val).1 &&& 0x80 ≠ 0) := rfl
  constructor
  · refine ⟨?_, ?_, ?_, ?_, ?_, ?_, ?_⟩
    · simp only [do_add_ya, hmk, hvv]
    · simp only [do_add_ya, hmk, hvv, decide_eq_true_iff]
    · rw [hnadd, decide_eq_true_iff, and_bit7_iff]
      simp only [do_add_ya, hmk, hvv]
    · simp only [do_add_ya, hmk, hvv, decide_eq_true_iff]
      omega
    · simp only [do_add_ya, hmk, hvv, decide_eq_true_iff]
    · simp only [do_add_ya, hmk, hvv, get_high]
      omega
    · simp only [do_add_ya, hmk, hvv, get_low]
  · refine ⟨?_, ?_, ?_, ?_, ?_, ?_, ?_⟩
    · simp only [do_sub_ya, hmk, hvv]
      omega
    · simp only [do_sub_ya, hmk, hvv, decide_eq_true_iff]
      omega
    · rw [hnsub, decide_eq_true_iff, and_bit7_iff]
      simp only [do_sub_ya, hmk, hvv]
      omega
    · simp only [do_sub_ya, hmk, hvv, decide_eq_true_iff]
      omega
    · simp only [do_sub_ya, hmk, hvv, decide_eq_true_iff]
      omega
    · simp only [do_sub_ya, hmk, hvv, get_high]
      omega
    · simp only [do_sub_ya, hmk, hvv, get_low]
      omega

/-- Witness for `addw_subw_flags_c5` at Y=0x12, A=0x34, M=0x4321. -/
theorem addw_subw_flags_c5_witness :
    (0x12 : Nat) < 256 ∧ (0x34 : Nat) < 256 ∧ (0x4321 : Nat) < 65536 ∧
    (((do_add_ya psw0 0x12 0x34 0x4321).1 = (256 * 0x12 + 0x34 + 0x4321) % 65536 ∧
      ((do_add_ya psw0 0x12 0x34 0x4321).2.1.c = true ↔ 65535 < 256 * 0x12 + 0x34 + 0x4321) ∧
      ((do_add_ya psw0 0x12 0x34 0x4321).2.1.n = true ↔
         128 ≤ (256 * 0x12 + 0x34 + 0x4321) % 65536 % 256) ∧
      ((do_add_ya psw0 0x12 0x34 0x4321).2.1.v = true ↔ 32767 < 256 * 0x12 + 0x34 + 0x4321) ∧
      ((do_add_ya psw0 0x12 0x34 0x4321).2.1.z = true ↔
         (256 * 0x12 + 0x34 + 0x4321) % 65536 = 0) ∧
      (do_add_ya psw0 0x12 0x34 0x4321).2.2.1 = (256 * 0x12 + 0x34 + 0x4321) % 65536 / 256 ∧
      (do_add_ya psw0 0x12 0x34 0x4321).2.2.2 = (256 * 0x12 + 0x34 + 0x4321) % 65536 % 256) ∧
     ((do_sub_ya psw0 0x12 0x34 0x4321).1 = (((256 * 0x12 + 0x34 : Int) - 0x4321) % 65536).toNat ∧
      ((do_sub_ya psw0 0x12 0x34 0x4321).2.1.c = true ↔ 0x4321 ≤ 256 * 0x12 + 0x34) ∧
      ((do_sub_ya psw0 0x12 0x34 0x4321).2.1.n = true ↔
         128 ≤ (((256 * 0x12 + 0x34 : Int) - 0x4321) % 65536).toNat % 256) ∧
      ((do_sub_ya psw0 0x12 0x34 0x4321).2.1.v = true ↔
         (256 * 0x12 + 0x34 : Int) - 0x4321 < -32768 ∨
           32767 < (256 * 0x12 + 0x34 : Int) - 0x4321) ∧
      ((do_sub_ya psw0 0x12 0x34 0x4321).2.1.z = true ↔ 256 * 0x12 + 0x34 = 0x4321) ∧
      (do_sub_ya psw0 0x12 0x34 0x4321).2.2.1 =
        (((256 * 0x12 + 0x34 : Int) - 0x4321) % 65536).toNat / 256 ∧
      (do_sub_ya psw0 0x12 0x34 0x4321).2.2.2 =
        (((256 * 0x12 + 0x34 : Int) - 0x4321) % 65536).toNat % 256)) :=
  ⟨by decide, by decide, by decide,
   addw_subw_flags_c5 0x12 0x34 0x4321 psw0 (by decide) (by decide) (by decide)⟩

/-- `enable_timer` never touches RAM. -/
theorem enable_timer_ram (s : SpcState) (t : Nat) : (enable_timer s t).ram = s.ram := rfl

/-- `clear_timer` never touches RAM. -/
theorem clear_timer_ram (s : SpcState) (t : Nat) : (clear_timer s t).ram = s.ram := rfl

/-- `List.range 3` unfolded, for walking the timer loops. -/
theorem range3_eq : List.range 3 = [0, 1, 2] := rfl

/-- C6: writing a byte to any 16-bit address outside {0xF3, 0xFD, 0xFE,
0xFF} and reading it back returns the byte written — for plain RAM and for
the MMIO window registers 0xF0-0xF2 and 0xF4-0xFC alike, whatever side
effects the write also performs. -/
theorem write_read_roundtrip_c6 (s : SpcState) (a v : Nat)
    (ha : a < 65536) (hv : v < 256)
    (h1 : a ≠ 0xF3) (h2 : a ≠ 0xFD) (h3 : a ≠ 0xFE) (h4 : a ≠ 0xFF) :
    (read_byte (write_byte s a v) a).1 = v := by
  simp only [write_byte, read_byte]
  rw [Nat.mod_eq_of_lt ha, Nat.mod_eq_of_lt hv]
  by_cases hw : 0xF0 ≤ a ∧ a ≤ 0xFF
  · rw [if_pos hw, if_pos hw]
    obtain ⟨hlo, hhi⟩ := hw
    interval_cases a
    all_goals first
      | exact absurd rfl h1
      | exact absurd rfl h2
      | exact absurd rfl h3
      | exact absurd rfl h4
      | rfl
      | (simp only [register_write, register_read, range3_eq, List.foldl_cons,
          List.foldl_nil, apply_ite SpcState.ram, enable_timer_ram, clear_timer_ram,
          ite_self]
         simp [upd])
  · rw [if_neg hw, if_neg hw]
    simp [upd]

/-- Witness for `write_read_roundtrip_c6` at the Control register 0xF1. -/
theorem write_read_roundtrip_c6_witness :
    (0xF1 : Nat) < 65536 ∧ (0xAB : Nat) < 256 ∧ (0xF1 : Nat) ≠ 0xF3 ∧
    (0xF1 : Nat) ≠ 0xFD ∧ (0xF1 : Nat) ≠ 0xFE ∧ (0xF1 : Nat) ≠ 0xFF ∧
    (read_byte (write_byte stateZero 0xF1 0xAB) 0xF1).1 = 0xAB :=
  ⟨by decide, by decide, by decide, by decide, by decide, by decide,
   write_read_roundtrip_c6 stateZero 0xF1 0xAB (by decide) (by decide)
     (by decide) (by decide) (by decide) (by decide)⟩

/-- C7 (counterexample): writing 0xFF to the DSP index register 0xF2 records
index 0xFF % 127 = 1, not 0xFF masked to 7 bits (= 127) as the claim
states. -/
theorem dsp_index_counterexample_c7 :
    ¬ (write_byte stateZero 0xF2 0xFF).current_dsp_register = 0xFF % 128 := by
  decide

/-- C7 (amended): when a value v > 127 is written to the DSP index register
at 0xF2, the recorded index is v mod 127 (not v mod 128), and the raw byte
still lands in RAM[0xF2]. -/
theorem dsp_index_mod127_c7 (s : SpcState) (v : Nat) (hv : v < 256) (hbig : 127 < v) :
    (write_byte s 0xF2 v).current_dsp_register = v % 127 ∧
    (write_byte s 0xF2 v).ram 0xF2 = v := by
  simp only [write_byte, read_byte]
  rw [Nat.mod_eq_of_lt hv]
  rw [if_pos (by omega : (0xF0 : Nat) ≤ 0xF2 ∧ (0xF2 : Nat) ≤ 0xFF)]
  simp only [register_write]
  constructor
  · simp [hbig]
  · simp [upd]

/-- Witness for `dsp_index_mod127_c7` at v = 200 (200 % 127 = 73). -/
theorem dsp_index_mod127_c7_witness :
    (200 : Nat) < 256 ∧ (127 : Nat) < 200 ∧
    ((write_byte stateZero 0xF2 200).current_dsp_register = 200 % 127 ∧
     (write_byte stateZero 0xF2 200).ram 0xF2 = 200) :=
  ⟨by decide, by decide, dsp_index_mod127_c7 stateZero 200 (by decide) (by decide)⟩

/-- C1 (counterexample): for the 9-byte block with header 0x04 (range 0,
filter F1, not last) and all-zero payload, with previous output samples
prev_brr = (0, 64), the claim's filtered decoding makes sample 0 equal to
0 + 64·1 + (−64·1 >> 4) = 60, but `decode_brr_block` produces 0: the
filter selector and the previous samples never enter the decode. -/
theorem decode_brr_counterexample_c1 :
    ¬ (decode_brr_block brrPtrF1).samples 0 =
        decode_brr_samples_claimed brrPtrF1 0 64 0 := by
  decide

/-- `List.range 8` unfolded, for walking the BRR payload loop. -/
theorem range8_eq : List.range 8 = [0, 1, 2, 3, 4, 5, 6, 7] := rfl

/-- C1 (amended): decoding a 9-byte block produces 16 samples where each
4-bit nibble (high nibble of payload byte i/2 for even i, low nibble for
odd i) is sign-extended and scaled as the 16-bit truncation of
`(nibble << range) >> 1` — the same expression for every range, with no
special case above 12 — and no filter is applied: the output sample equals
the scaled nibble regardless of the filter bits and of any previous output
samples.  The header fields are split out as bits 7..4 = range (used only in
the scale), 3..2 = filter (stored, unused), 1 = loop, 0 = last. -/
theorem decode_brr_formula_c1 (ptr : Nat → Nat) (i : Nat) (hi : i < 16) :
    (decode_brr_block ptr).samples i =
      brr_scaled ((ptr 0 / 16) % 16)
        (nibble_val (if i % 2 = 0 then (ptr (i / 2 + 1) / 16) % 16
                     else ptr (i / 2 + 1) % 16)) ∧
    (decode_brr_block ptr).filter = (ptr 0 / 4) % 4 ∧
    (decode_brr_block ptr).loop_flag = (ptr 0 / 2) % 2 ∧
    (decode_brr_block ptr).last_chunk = ptr 0 % 2 := by
  refine ⟨?_, rfl, rfl, rfl⟩
  interval_cases i <;>
    simp [decode_brr_block, decode_brr_samples, range8_eq, upd]

/-- Witness for `decode_brr_formula_c1` at sample index 5 of the concrete
block `brrPtrF1`. -/
theorem decode_brr_formula_c1_witness :
    (5 : Nat) < 16 ∧
    ((decode_brr_block brrPtrF1).samples 5 =
       brr_scaled ((brrPtrF1 0 / 16) % 16)
         (nibble_val (if 5 % 2 = 0 then (brrPtrF1 (5 / 2 + 1) / 16) % 16
                      else brrPtrF1 (5 / 2 + 1) % 16)) ∧
     (decode_brr_block brrPtrF1).filter = (brrPtrF1 0 / 4) % 4 ∧
     (decode_brr_block brrPtrF1).loop_flag = (brrPtrF1 0 / 2) % 2 ∧
     (decode_brr_block brrPtrF1).last_chunk = brrPtrF1 0 % 2) :=
  ⟨by decide, decode_brr_formula_c1 brrPtrF1 5 (by decide)⟩

set_option maxRecDepth 8192 in
/-- C8 (counterexample): with voice 0 at pitch counter 0 on a block whose
sample 0 is 1000 and an empty previous-sample window, the claim's clamped
Gaussian mix is (T[0x0FF]·0 + T[0x1FF]·0 + T[0x100]·0 + T[0]·1000) >> 11 =
0, but `get_next_sample` emits 1000: the raw block sample, not the
interpolated and clamped value. -/
theorem gauss_interp_counterexample_c8 :
    ¬ (get_next_sample stateSpike 0).1 = gauss_mix_claimed 0 0 0 0 1000 := by
  decide

/-- C8 (amended): for a voice whose pitch counter is at most 65536, the
sample the voice produces is the raw decoded block sample selected by bits
12-15 of the counter — unclamped and uninterpolated (the Gaussian value at
phase `(counter >> 4) & 0x1FF` is computed into a dead local, see
`interp_out`, and discarded).  The previous-sample window is rotated with
the raw sample and the counter advances by the voice pitch. -/
theorem get_next_sample_raw_c8 (s : SpcState) (voice_nr : Nat) (blk : BrrBlock)
    (hb : (s.voices voice_nr).block = some blk)
    (hc : 0 ≤ (s.voices voice_nr).counter)
    (hc2 : (s.voices voice_nr).counter ≤ 65536) :
    (get_next_sample s voice_nr).1 =
      blk.samples (((s.voices voice_nr).counter.toNat / 4096) % 16) ∧
    ((get_next_sample s voice_nr).2.voices voice_nr).prev0 = (s.voices voice_nr).prev1 ∧
    ((get_next_sample s voice_nr).2.voices voice_nr).prev1 = (s.voices voice_nr).prev2 ∧
    ((get_next_sample s voice_nr).2.voices voice_nr).prev2 = (get_next_sample s voice_nr).1 ∧
    ((get_next_sample s voice_nr).2.voices voice_nr).counter =
      (s.voices voice_nr).counter + get_voice_pitch s voice_nr ∧
    ((get_next_sample s voice_nr).2.voices voice_nr).enabled = (s.voices voice_nr).enabled := by
  have hnotgt : ¬ ((s.voices voice_nr).counter > 65536) := by omega
  simp only [get_next_sample, if_neg hnotgt, hb, Option.getD_some]
  norm_num [upd]

/-- Witness for `get_next_sample_raw_c8` on the concrete state
`stateSpike`. -/
theorem get_next_sample_raw_c8_witness :
    (stateSpike.voices 0).block = some blockSpike ∧
    0 ≤ (stateSpike.voices 0).counter ∧
    (stateSpike.voices 0).counter ≤ 65536 ∧
    ((get_next_sample stateSpike 0).1 =
       blockSpike.samples (((stateSpike.voices 0).counter.toNat / 4096) % 16) ∧
     ((get_next_sample stateSpike 0).2.voices 0).prev0 = (stateSpike.voices 0).prev1 ∧
     ((get_next_sample stateSpike 0).2.voices 0).prev1 = (stateSpike.voices 0).prev2 ∧
     ((get_next_sample stateSpike 0).2.voices 0).prev2 = (get_next_sample stateSpike 0).1 ∧
     ((get_next_sample stateSpike 0).2.voices 0).counter =
       (stateSpike.voices 0).counter + get_voice_pitch stateSpike 0 ∧
     ((get_next_sample stateSpike 0).2.voices 0).enabled = (stateSpike.voices 0).enabled) :=
  ⟨rfl, by decide, by decide,
   get_next_sample_raw_c8 stateSpike 0 blockSpike rfl (by decide) (by decide)⟩

end Spcplayer
